import Mathlib

/-
  Verification development for the airbuddy_v2 telemetry pipeline.

  Shallow embedding of:
  - src/sensors/co2-confidence.py   (confidence model)
  - src/net/telemetry_client.py     (persistent queue + transport client)
  - src/sensors/air.py              (sensor acquisition retry loop, read_quick)
  - src/app/telemetry_scheduler.py  (interval scheduler, real-data gate)

  Conventions:
  - Python ints are Int; Python floats that are only compared (never rounded)
    are Rat; machine time (time.ticks_ms) is modelled as an unbounded
    monotonic Int millisecond counter (the spec's design notes sanction
    ignoring the 32-bit wraparound of the tick counter).
  - I/O outcomes (bus reads, HTTP posts, exceptions) are supplied by explicit
    environment oracles; a raised exception is an explicit `none`/flag.
-/

set_option linter.unusedSectionVars false

namespace AirBuddy

/-! ## Confidence model: src/sensors/co2-confidence.py -/

/-- Embedding of `clamp(val, lo, hi)` from src/sensors/co2-confidence.py. -/
def clamp (val lo hi : Int) : Int :=
  if val < lo then lo
  else if val > hi then hi
  else val

/-- Embedding of `calculate_co2_confidence` from src/sensors/co2-confidence.py.
The sequential `score += ...` accumulation is mirrored by shadowing lets. -/
def calculate_co2_confidence (ens_valid warmup_done temp_ok rh_ok : Bool)
    (eco2_ppm : Int) (last_eco2_ppm : Option Int)
    (aqi : Option Int) (last_aqi : Option Int) (source : String) : Int :=
  let score : Int := 0
  let score := if ens_valid then score + 30 else score
  let score := if warmup_done then score + 10 else score
  let score := if temp_ok then score + 10 else score
  let score := if rh_ok then score + 10 else score
  let score :=
    match last_eco2_ppm with
    | some l =>
        let delta := |eco2_ppm - l|
        if delta < 50 then score + 20
        else if delta < 150 then score + 12
        else if delta < 300 then score + 5
        else score
    | none => score + 5
  let score :=
    match aqi, last_aqi with
    | some a, some la => if |a - la| ≤ 1 then score + 15 else score + 5
    | _, _ => score
  let score := if source ≠ "fallback" then score + 5 else score
  clamp score 1 100

/-- Modelled from the spec: the confidence score as the spec words it in
section 4.1 — an order-independent additive sum of independent weighted terms
(validity +30, warm-up +10, temperature +10, humidity +10, eCO2-stability
tier, AQI-stability term, provenance bonus), clamped to [1, 100]. Used only
to compare against `calculate_co2_confidence` above. -/
def specConfidence (ens_valid warmup_done temp_ok rh_ok : Bool)
    (eco2_ppm : Int) (last_eco2_ppm : Option Int)
    (aqi : Option Int) (last_aqi : Option Int) (source : String) : Int :=
  clamp
    ((if ens_valid then 30 else 0)
      + (if warmup_done then 10 else 0)
      + (if temp_ok then 10 else 0)
      + (if rh_ok then 10 else 0)
      + (match last_eco2_ppm with
         | some l =>
             if |eco2_ppm - l| < 50 then 20
             else if |eco2_ppm - l| < 150 then 12
             else if |eco2_ppm - l| < 300 then 5
             else 0
         | none => 5)
      + (match aqi, last_aqi with
         | some a, some la => if |a - la| ≤ 1 then 15 else 5
         | _, _ => 0)
      + (if source = "fallback" then 0 else 5))
    1 100

theorem clamp_bounds (v lo hi : Int) (h : lo ≤ hi) :
    lo ≤ clamp v lo hi ∧ clamp v lo hi ≤ hi := by
  unfold clamp
  split_ifs <;> omega

/-! ## Persistent queue: src/net/telemetry_client.py -/

section Client

variable {α : Type}

/-- Embedding of `TelemetryClient._enqueue`: append the payload, and if the
queue now exceeds `maxItems` keep only the last `maxItems` entries
(`q = q[-max_items:]`). -/
def enqueue (maxItems : Nat) (q : List α) (p : α) : List α :=
  if maxItems < (q ++ [p]).length then (q ++ [p]).drop ((q ++ [p]).length - maxItems)
  else q ++ [p]

/-- The last `n` elements of a list, in order. -/
def takeLast (n : Nat) (l : List α) : List α := l.drop (l.length - n)

theorem takeLast_of_le (n : Nat) (l : List α) (h : l.length ≤ n) :
    takeLast n l = l := by
  unfold takeLast
  have : l.length - n = 0 := by omega
  simp [this]

theorem enqueue_eq_takeLast (maxItems : Nat) (q : List α) (p : α) :
    enqueue maxItems q p = takeLast maxItems (q ++ [p]) := by
  unfold enqueue takeLast
  split
  · rfl
  · next h =>
    have h2 : (q ++ [p]).length - maxItems = 0 := by omega
    rw [h2, List.drop_zero]

theorem length_takeLast (n : Nat) (l : List α) : (takeLast n l).length ≤ n := by
  unfold takeLast
  simp only [List.length_drop]
  omega

theorem length_enqueue_le (maxItems : Nat) (q : List α) (p : α) :
    (enqueue maxItems q p).length ≤ max maxItems (q.length + 1) := by
  unfold enqueue
  split <;> simp only [List.length_drop, List.length_append, List.length_cons,
    List.length_nil] <;> omega

theorem takeLast_append_of_le (n : Nat) (a b : List α) (h : n ≤ b.length) :
    takeLast n (a ++ b) = takeLast n b := by
  unfold takeLast
  rw [List.length_append]
  have hsplit : a.length + b.length - n = a.length + (b.length - n) := by omega
  rw [hsplit, List.drop_append]

theorem takeLast_takeLast_append (n : Nat) (a b : List α) :
    takeLast n (takeLast n a ++ b) = takeLast n (a ++ b) := by
  rcases le_or_lt n a.length with h | h
  · calc takeLast n (takeLast n a ++ b)
        = takeLast n (a.drop (a.length - n) ++ b) := rfl
      _ = takeLast n (a.take (a.length - n) ++ (a.drop (a.length - n) ++ b)) :=
          (takeLast_append_of_le n _ _ (by
            simp only [List.length_append, List.length_drop]
            omega)).symm
      _ = takeLast n (a ++ b) := by rw [← List.append_assoc, List.take_append_drop]
  · rw [takeLast_of_le n a (by omega)]

theorem foldl_enqueue_takeLast (maxItems : Nat) :
    ∀ (ps : List α) (q0 : List α), q0.length ≤ maxItems →
      List.foldl (enqueue maxItems) q0 ps = takeLast maxItems (q0 ++ ps)
  | [], q0, h => by
      simp only [List.foldl_nil, List.append_nil]
      exact (takeLast_of_le _ _ h).symm
  | p :: ps, q0, h => by
      have hstep : (enqueue maxItems q0 p).length ≤ maxItems := by
        rw [enqueue_eq_takeLast]
        exact length_takeLast _ _
      calc List.foldl (enqueue maxItems) q0 (p :: ps)
          = List.foldl (enqueue maxItems) (enqueue maxItems q0 p) ps := rfl
        _ = takeLast maxItems (enqueue maxItems q0 p ++ ps) :=
            foldl_enqueue_takeLast maxItems ps _ hstep
        _ = takeLast maxItems (takeLast maxItems (q0 ++ [p]) ++ ps) := by
            rw [enqueue_eq_takeLast]
        _ = takeLast maxItems ((q0 ++ [p]) ++ ps) := takeLast_takeLast_append _ _ _
        _ = takeLast maxItems (q0 ++ (p :: ps)) := by
            rw [List.append_assoc]
            rfl

/-! ### flush_queue -/

/-- The main loop of `TelemetryClient.flush_queue`. `posts i` is the outcome
of the i-th `_post` call (0-based; the source increments `tried` just before
posting, so the item posted with `tried = k+1` is attempt `k` here).
Returns (new_q, tried, broke-early). -/
def flushLoop (posts : Nat → Bool) (maxToTry : Nat) :
    List α → Nat → List α → List α × Nat × Bool
  | [], tried, newQ => (newQ, tried, false)
  | item :: rest, tried, newQ =>
      if maxToTry ≤ tried then
        -- keep the rest without posting
        flushLoop posts maxToTry rest tried (newQ ++ [item])
      else if posts tried then
        flushLoop posts maxToTry rest (tried + 1) newQ
      else
        -- keep this item and stop early
        (newQ ++ [item], tried + 1, true)

/-- The post-loop `for it in remaining: if it not in new_q: new_q.append(it)`
of `flush_queue` (membership is Python structural equality). -/
def dedupAppend [DecidableEq α] (acc : List α) (l : List α) : List α :=
  l.foldl (fun acc2 it => if it ∈ acc2 then acc2 else acc2 ++ [it]) acc

/-- Embedding of `TelemetryClient.flush_queue`: run the bounded resend loop
(`max_to_try` clamped to at least 1), then, if fewer items were tried than
queued, re-append the remaining items that are not already kept. -/
def flush_queue [DecidableEq α] (posts : Nat → Bool) (maxToTry : Nat)
    (q : List α) : List α :=
  if q.isEmpty then q
  else
    let r := flushLoop posts (max 1 maxToTry) q 0 []
    if r.2.1 < q.length then dedupAppend r.1 (q.drop r.2.1) else r.1

/-- Number of `_post` attempts made by a `flush_queue` call. -/
def flushAttempts (posts : Nat → Bool) (maxToTry : Nat) (q : List α) : Nat :=
  if q.isEmpty then 0 else (flushLoop posts (max 1 maxToTry) q 0 []).2.1

theorem flushLoop_tried_le (posts : Nat → Bool) (m : Nat) :
    ∀ (q : List α) (tried : Nat) (newQ : List α), tried ≤ m →
      (flushLoop posts m q tried newQ).2.1 ≤ m
  | [], tried, newQ, h => h
  | item :: rest, tried, newQ, h => by
      unfold flushLoop
      split
      · exact flushLoop_tried_le posts m rest tried _ h
      · next hlt =>
        split
        · exact flushLoop_tried_le posts m rest (tried + 1) _ (by omega)
        · simpa using by omega

theorem flushAttempts_le (posts : Nat → Bool) (maxToTry : Nat) (q : List α) :
    flushAttempts posts maxToTry q ≤ max 1 maxToTry := by
  unfold flushAttempts
  split
  · omega
  · exact flushLoop_tried_le posts _ q 0 [] (by omega)

theorem dedupAppend_of_disjoint [DecidableEq α] :
    ∀ (l acc : List α), l.Nodup → (∀ a ∈ l, a ∉ acc) →
      dedupAppend acc l = acc ++ l
  | [], acc, _, _ => by simp [dedupAppend]
  | a :: l, acc, hnd, hdisj => by
      have ha : a ∉ acc := hdisj a (List.mem_cons_self a l)
      have hnd2 : l.Nodup := (List.nodup_cons.mp hnd).2
      have hdisj2 : ∀ b ∈ l, b ∉ acc ++ [a] := by
        intro b hb
        simp only [List.mem_append, List.mem_singleton]
        push_neg
        refine ⟨hdisj b (List.mem_cons_of_mem a hb), ?_⟩
        intro hba
        exact (List.nodup_cons.mp hnd).1 (hba ▸ hb)
      calc dedupAppend acc (a :: l)
          = dedupAppend (acc ++ [a]) l := by simp [dedupAppend, ha]
        _ = (acc ++ [a]) ++ l := dedupAppend_of_disjoint l (acc ++ [a]) hnd2 hdisj2
        _ = acc ++ (a :: l) := by simp

/-- Loop characterization on the all-success prefix followed by a failure:
if attempts `t, t+1, ..., t+|q1|-1` succeed and attempt `t+|q1|` fails within
the bound, the loop keeps exactly the failed item and reports the attempt
count at the break. -/
theorem flushLoop_fail_at (posts : Nat → Bool) (m : Nat) (x : α) (q2 : List α) :
    ∀ (q1 : List α) (t : Nat),
      (∀ i, i < q1.length → posts (t + i) = true) →
      t + q1.length < m →
      posts (t + q1.length) = false →
      flushLoop posts m (q1 ++ x :: q2) t [] = ([x], t + q1.length + 1, true)
  | [], t, _, hbound, hfail => by
      simp only [List.length_nil, Nat.add_zero] at hbound hfail
      simp only [List.nil_append]
      unfold flushLoop
      rw [if_neg (by omega), if_neg (by simp [hfail])]
      simp
  | a :: q1, t, hsucc, hbound, hfail => by
      simp only [List.length_cons] at hbound hfail
      have h0 : posts t = true := by simpa using hsucc 0 (by simp)
      have hrec := flushLoop_fail_at posts m x q2 q1 (t + 1)
        (fun i hi => by
          have h := hsucc (i + 1) (by simp only [List.length_cons]; omega)
          have harg : t + (i + 1) = t + 1 + i := by omega
          rwa [harg] at h)
        (by omega)
        (by
          have harg : t + (q1.length + 1) = t + 1 + q1.length := by omega
          rwa [harg] at hfail)
      simp only [List.cons_append]
      unfold flushLoop
      rw [if_neg (by omega), if_pos h0, hrec]
      have harg : t + 1 + q1.length + 1 = t + (q1.length + 1) + 1 := by omega
      rw [harg]
      simp

/-! ### send -/

/-- Outcomes of the I/O a `TelemetryClient.send` call can perform:
`payloadPost i` is the (ok, status-message) of the i-th `_post` of the fresh
payload, `flushPost i` the outcome of the i-th `_post` inside the opportunistic
`flush_queue` drain. -/
structure SendEnv where
  payloadPost : Nat → Bool × String
  flushPost : Nat → Bool

/-- Observable result of a `send` call: the returned (ok, message) pair, the
resulting persistent queue, the `time.sleep` durations performed (seconds),
and the number of `_post` attempts made on the fresh payload. -/
structure SendOutcome (α : Type) where
  ok : Bool
  msg : String
  queue : List α
  sleeps : List Nat
  attempts : Nat
deriving DecidableEq

/-- The retry loop of `TelemetryClient.send`: post, on success drain up to 8
queued items and return ("sent"); on failure sleep `backoff` seconds, double
the backoff and retry; when the attempts are exhausted enqueue the payload and
return "queued: " followed by the last failure message. -/
def sendLoop [DecidableEq α] (env : SendEnv) (q : List α) (p : α) :
    Nat → Nat → Nat → List Nat → String → SendOutcome α
  | 0, i, _, sleeps, lastMsg =>
      { ok := false, msg := "queued: " ++ lastMsg, queue := enqueue 100 q p,
        sleeps := sleeps, attempts := i }
  | rem + 1, i, backoff, sleeps, _lastMsg =>
      if (env.payloadPost i).1 then
        { ok := true, msg := "sent", queue := flush_queue env.flushPost 8 q,
          sleeps := sleeps, attempts := i + 1 }
      else
        sendLoop env q p rem (i + 1) (backoff * 2) (sleeps ++ [backoff])
          (env.payloadPost i).2

/-- `retries` clamped to [1, 3] as in `TelemetryClient.send`. -/
def clampRetries (retries : Int) : Nat :=
  if retries < 1 then 1 else if retries > 3 then 3 else retries.toNat

/-- Embedding of `TelemetryClient.send(payload, retries=3)`. -/
def send [DecidableEq α] (env : SendEnv) (q : List α) (p : α)
    (retries : Int) : SendOutcome α :=
  sendLoop env q p (clampRetries retries) 0 1 [] ""

end Client

/-! ## Sensor acquisition: src/sensors/air.py -/

/-- A raw ENS160 sample as returned by `ENS160.read_air_raw`. -/
structure RawSample where
  aqi : Int
  tvoc_ppb : Int
  eco2_ppm : Int
deriving DecidableEq

/-- Embedding of `AirSensor._ens_values_look_ready`. -/
def ens_values_look_ready (aqi tvoc_ppb eco2_ppm : Int) : Bool :=
  if aqi < 1 ∨ aqi > 5 then false
  else if eco2_ppm ≤ 0 then false
  else if eco2_ppm > 60000 then false
  else if tvoc_ppb > 65000 then false
  else true

/-- Result of `AirSensor._read_ens160_with_retry`
(the tuple `aqi, tvoc_ppb, eco2_ppm, ready, reason`). -/
structure RetryOutcome where
  aqi : Int
  tvoc_ppb : Int
  eco2_ppm : Int
  ready : Bool
  reason : String
deriving DecidableEq

/-- The post-loop returns of `_read_ens160_with_retry`: `last` is the value of
the local variable `last` when the timeout elapses. -/
def retryFinish (last : Option RawSample) : RetryOutcome :=
  match last with
  | none =>
      { aqi := 0, tvoc_ppb := 0, eco2_ppm := 0, ready := false,
        reason := "ens160 read failed" }
  | some s =>
      { aqi := s.aqi, tvoc_ppb := s.tvoc_ppb, eco2_ppm := s.eco2_ppm,
        ready := false, reason := "ens160 not ready" }

/-- Number of loop iterations of `_read_ens160_with_retry` when each bus read
is instantaneous and each iteration sleeps `step_ms`: the body runs while
`k * step_ms < timeout_ms`. -/
def retryIters (timeout_ms step_ms : Nat) : Nat :=
  (timeout_ms + step_ms - 1) / step_ms

/-- One iteration per fuel unit: `attempts k` is the outcome of the k-th
`read_air_raw` call (`none` when the read raised, so the source sets
`last = None`). A sample passing the validity heuristic returns immediately
with `ready = true` and an empty reason. -/
def retryLoop (attempts : Nat → Option RawSample) :
    Nat → Nat → Option RawSample → RetryOutcome
  | 0, _, last => retryFinish last
  | fuel + 1, k, _ =>
      match attempts k with
      | none => retryLoop attempts fuel (k + 1) none
      | some s =>
          if ens_values_look_ready s.aqi s.tvoc_ppb s.eco2_ppm then
            { aqi := s.aqi, tvoc_ppb := s.tvoc_ppb, eco2_ppm := s.eco2_ppm,
              ready := true, reason := "" }
          else retryLoop attempts fuel (k + 1) (some s)

/-- Embedding of `AirSensor._read_ens160_with_retry(temp_c, rh, timeout_ms,
step_ms)` (the environmental-compensation write does not influence the
modelled outcome; the read outcomes are the oracle `attempts`). -/
def read_ens160_with_retry (timeout_ms step_ms : Nat)
    (attempts : Nat → Option RawSample) : RetryOutcome :=
  retryLoop attempts (retryIters timeout_ms step_ms) 0 none

/-- Whether a read outcome is a sample passing the validity heuristic. -/
def validAttempt (o : Option RawSample) : Bool :=
  match o with
  | some s => ens_values_look_ready s.aqi s.tvoc_ppb s.eco2_ppm
  | none => false

theorem retryLoop_ready_valid (attempts : Nat → Option RawSample) :
    ∀ (fuel k : Nat) (last : Option RawSample),
      (retryLoop attempts fuel k last).ready = true →
      ens_values_look_ready (retryLoop attempts fuel k last).aqi
        (retryLoop attempts fuel k last).tvoc_ppb
        (retryLoop attempts fuel k last).eco2_ppm = true
  | 0, k, last, h => by
      exfalso
      cases hl : last <;> simp [retryLoop, retryFinish, hl] at h
  | fuel + 1, k, last, h => by
      cases ha : attempts k with
      | none =>
          simp only [retryLoop, ha] at h ⊢
          exact retryLoop_ready_valid attempts fuel (k + 1) none h
      | some s =>
          by_cases hv : ens_values_look_ready s.aqi s.tvoc_ppb s.eco2_ppm = true
          · simp only [retryLoop, ha, hv, if_true]
          · simp only [retryLoop, ha, hv, if_false] at h ⊢
            exact retryLoop_ready_valid attempts fuel (k + 1) (some s) h

theorem retryLoop_found (attempts : Nat → Option RawSample) :
    ∀ (fuel k : Nat) (last : Option RawSample),
      (∃ i, i < fuel ∧ validAttempt (attempts (k + i)) = true) →
      (retryLoop attempts fuel k last).ready = true ∧
      (retryLoop attempts fuel k last).reason = ""
  | 0, k, last, h => by
      obtain ⟨i, hi, _⟩ := h
      omega
  | fuel + 1, k, last, h => by
      cases ha : attempts k with
      | none =>
          simp only [retryLoop, ha]
          refine retryLoop_found attempts fuel (k + 1) none ?_
          obtain ⟨i, hi, hv⟩ := h
          match i with
          | 0 => rw [Nat.add_zero, ha] at hv; simp [validAttempt] at hv
          | j + 1 =>
              refine ⟨j, by omega, ?_⟩
              have harg : k + (j + 1) = k + 1 + j := by omega
              rwa [harg] at hv
      | some s =>
          by_cases hv0 : ens_values_look_ready s.aqi s.tvoc_ppb s.eco2_ppm = true
          · simp [retryLoop, ha, hv0]
          · simp only [retryLoop, ha, hv0, if_false]
            refine retryLoop_found attempts fuel (k + 1) (some s) ?_
            obtain ⟨i, hi, hv⟩ := h
            match i with
            | 0 =>
                rw [Nat.add_zero, ha] at hv
                simp only [validAttempt] at hv
                exact absurd hv hv0
            | j + 1 =>
                refine ⟨j, by omega, ?_⟩
                have harg : k + (j + 1) = k + 1 + j := by omega
                rwa [harg] at hv

theorem retryLoop_timeout (attempts : Nat → Option RawSample) :
    ∀ (fuel k : Nat) (last : Option RawSample),
      (∀ i, i < fuel → validAttempt (attempts (k + i)) = false) →
      retryLoop attempts fuel k last =
        retryFinish (match fuel with
          | 0 => last
          | m + 1 => attempts (k + m))
  | 0, k, last, _ => rfl
  | fuel + 1, k, last, h => by
      cases ha : attempts k with
      | none =>
          simp only [retryLoop, ha]
          rw [retryLoop_timeout attempts fuel (k + 1) none (fun i hi => by
            have harg : k + 1 + i = k + (i + 1) := by omega
            rw [harg]
            exact h (i + 1) (by omega))]
          cases fuel with
          | zero => simp [ha]
          | succ m =>
              have harg : k + 1 + m = k + (m + 1) := by omega
              simp [harg]
      | some s =>
          have hv : ens_values_look_ready s.aqi s.tvoc_ppb s.eco2_ppm = false := by
            have h0 := h 0 (by omega)
            rw [Nat.add_zero, ha] at h0
            simpa [validAttempt] using h0
          simp only [retryLoop, ha, hv, if_false]
          rw [retryLoop_timeout attempts fuel (k + 1) (some s) (fun i hi => by
            have harg : k + 1 + i = k + (i + 1) := by omega
            rw [harg]
            exact h (i + 1) (by omega))]
          cases fuel with
          | zero => simp [ha]
          | succ m =>
              have harg : k + 1 + m = k + (m + 1) := by omega
              simp [harg]

/-! ### AirReading and read_quick -/

/-- Embedding of `AirSensor._rating_from_aqi`. -/
def rating_from_aqi (aqi : Int) : String :=
  if aqi ≤ 1 then "Very good"
  else if aqi = 2 then "Good"
  else if aqi = 3 then "Ok"
  else "Poor"

/-- The `AirReading` container from src/sensors/air.py (constructor coercions
already applied: ints are Int, floats are Rat, strings are String). -/
structure AirReading where
  timestamp : Int
  temp_c : Rat
  humidity : Rat
  eco2_ppm : Int
  tvoc_ppb : Int
  aqi : Int
  rating : String
  source : String
  ready : Bool
  confidence : Option Int
  reason : String
  aht10_temp_c : Option Rat
  aht10_humidity : Option Rat
  aht21_temp_c : Option Rat
  aht21_humidity : Option Rat
deriving DecidableEq

/-- The I/O outcomes a single `AirSensor.read_quick` call can observe:
`fail = true` models an exception escaping the body (caught by the outer
`except`, which returns `self._last`); `aht21`/`aht10` are the best-effort
temperature/humidity reads (none = the read raised); `attempts` drives the
ENS160 retry loop. -/
structure QuickEnv where
  fail : Bool
  aht21 : Option (Rat × Rat)
  aht10 : Option (Rat × Rat)
  attempts : Nat → Option RawSample
  timestamp : Int
  source : String

/-- The primary (temp, rh, env-source-tag) selection of `read_quick`:
prefer AHT21, else AHT10, else 0/0. -/
def quickPrimary (env : QuickEnv) : Rat × Rat × String :=
  match env.aht21 with
  | some th => (th.1, th.2, "aht21")
  | none =>
      match env.aht10 with
      | some th => (th.1, th.2, "aht10")
      | none => (0, 0, "none")

/-- The fresh `AirReading` built by `AirSensor.read_quick` (retry window
timeout_ms=1000, step_ms=200). The confidence import
`from src.sensors.co2_confidence import ...` always raises in this repository
(the module file is named co2-confidence.py), so the `except` branch supplies
`conf = 90 if ready else 0`. -/
def mkQuickReading (env : QuickEnv) : AirReading :=
  let prim := quickPrimary env
  let rr := read_ens160_with_retry 1000 200 env.attempts
  { timestamp := env.timestamp
    temp_c := prim.1
    humidity := prim.2.1
    eco2_ppm := rr.eco2_ppm
    tvoc_ppb := rr.tvoc_ppb
    aqi := rr.aqi
    rating := if rr.ready then rating_from_aqi rr.aqi else "Not ready"
    source := if prim.2.2 = "none" then env.source
              else env.source ++ "+" ++ prim.2.2
    ready := rr.ready
    confidence := some (if rr.ready then (90 : Int) else 0)
    reason := rr.reason
    aht10_temp_c := env.aht10.map Prod.fst
    aht10_humidity := env.aht10.map Prod.snd
    aht21_temp_c := env.aht21.map Prod.fst
    aht21_humidity := env.aht21.map Prod.snd }

/-- Embedding of `AirSensor.read_quick`: given the current `self._last`
(the most recently accepted reading) and the call's I/O outcomes, returns
(new value of `self._last`, returned reading). On exception: return `_last`.
On a ready fresh reading: store and return it. Otherwise: `_last or r`. -/
def read_quick (st : Option AirReading) (env : QuickEnv) :
    Option AirReading × Option AirReading :=
  if env.fail then (st, st)
  else
    let r := mkQuickReading env
    if r.ready then (some r, some r)
    else (st, match st with
              | some p => some p
              | none => some r)

/-- `self._last` after a sequence of `read_quick` calls starting from a fresh
sensor object (`self._last = None`). -/
def runQuick (envs : List QuickEnv) : Option AirReading :=
  envs.foldl (fun st env => (read_quick st env).1) none

theorem read_quick_preserves_ready (st : Option AirReading) (env : QuickEnv)
    (h : ∀ r, st = some r → r.ready = true) :
    ∀ r, (read_quick st env).1 = some r → r.ready = true := by
  intro r hr
  unfold read_quick at hr
  by_cases hf : env.fail
  · rw [if_pos hf] at hr
    exact h r hr
  · rw [if_neg hf] at hr
    by_cases hready : (mkQuickReading env).ready = true
    · simp only [hready, if_true] at hr
      cases hr
      exact hready
    · simp only [hready, if_false] at hr
      exact h r hr

theorem runQuick_ready (envs : List QuickEnv) :
    ∀ r, runQuick envs = some r → r.ready = true := by
  unfold runQuick
  have main : ∀ (l : List QuickEnv) (st : Option AirReading),
      (∀ r, st = some r → r.ready = true) →
      ∀ r, List.foldl (fun st2 env => (read_quick st2 env).1) st l = some r →
        r.ready = true := by
    intro l
    induction l with
    | nil => intro st h r hr; exact h r hr
    | cons e l ih =>
        intro st h r hr
        exact ih _ (read_quick_preserves_ready st e h) r hr
  exact main envs none (by intro r hr; cases hr)

/-! ## Telemetry scheduler: src/app/telemetry_scheduler.py -/

/-- The slice of the configuration dict that `TelemetryScheduler.tick` reads.
`present = false` models a falsy `cfg` (`if not cfg`); a missing
`telemetry_post_every_s` key is `none` (the code then uses the default 120),
and a stored 0 is also replaced by 120 by the `or 120` idiom. -/
structure SchedCfg where
  present : Bool
  telemetry_enabled : Bool
  telemetry_post_every_s : Option Int
deriving DecidableEq

/-- The `interval_s` computed by `tick`: default 120 (also for a falsy stored
value), then clamped to a floor of 10 seconds. -/
def intervalS (cfg : SchedCfg) : Int :=
  let raw : Int :=
    match cfg.telemetry_post_every_s with
    | none => 120
    | some v => if v = 0 then 120 else v
  if raw < 10 then 10 else raw

theorem intervalS_ge_ten (cfg : SchedCfg) : 10 ≤ intervalS cfg := by
  unfold intervalS
  cases cfg.telemetry_post_every_s <;> simp only [] <;> split_ifs <;> omega

/-- The compact `values` dict built by `TelemetryScheduler._build_values`
(AirReading path; the reading's fields are all present, `confidence` may be
absent). `note_no_reading = true` models `values = {"note": "no_reading"}`. -/
structure TelemetryValues where
  eco2_ppm : Option Int
  tvoc_ppb : Option Int
  temp_c : Option Rat
  rh : Option Rat
  aqi : Option Int
  ready : Option Bool
  confidence : Option Int
  rtc_temp_c : Option Rat
  note_no_reading : Bool
deriving DecidableEq

/-- The empty `values` dict. -/
def emptyValues : TelemetryValues :=
  { eco2_ppm := none, tvoc_ppb := none, temp_c := none, rh := none,
    aqi := none, ready := none, confidence := none, rtc_temp_c := none,
    note_no_reading := false }

/-- Embedding of `TelemetryScheduler._build_values(reading, rtc_temp_c)` for
`AirReading` readings (the only shape `read_quick` produces): copy the known
fields, optionally add the RTC temperature, and mark `note = "no_reading"`
when the dict would otherwise be empty. -/
def build_values (reading : Option AirReading) (rtcTemp : Option Rat) :
    TelemetryValues :=
  let v0 :=
    match reading with
    | some r =>
        { emptyValues with
          eco2_ppm := some r.eco2_ppm, tvoc_ppb := some r.tvoc_ppb,
          temp_c := some r.temp_c, rh := some r.humidity,
          aqi := some r.aqi, ready := some r.ready,
          confidence := r.confidence }
    | none => emptyValues
  let v1 :=
    match rtcTemp with
    | some t => { v0 with rtc_temp_c := some t }
    | none => v0
  if v1 = emptyValues then { v1 with note_no_reading := true } else v1

/-- Embedding of `TelemetryScheduler._values_has_real_data`. -/
def values_has_real_data (v : TelemetryValues) : Bool :=
  if v = emptyValues then false
  else if v.note_no_reading then false
  else if v.ready = some false then false
  else if (match v.eco2_ppm with
           | some e => decide (0 < e)
           | none => false) then true
  else if (match v.tvoc_ppb with
           | some t => decide (0 < t)
           | none => false) then true
  else if (match v.temp_c with
           | some t => decide (-20 ≤ t ∧ t ≤ 80)
           | none => false) then true
  else if (match v.rh with
           | some h => decide (0 ≤ h ∧ h ≤ 100)
           | none => false) then true
  else false

/-- The wifi-manager situation a tick observes: no manager configured,
connected, disconnected, or `is_connected()` raising. -/
inductive WifiState
  | noManager
  | connected
  | disconnected
  | checkError
deriving DecidableEq

/-- The per-call oracle for `TelemetryScheduler.tick`: the tick counter,
the wifi situation, whether sampling warmup is in progress, the outcome of
`read_quick` (`none` = it raised, `some none` = returned a falsy reading),
the optional RTC temperature, the unix clock, and the outcome of
`client.send` (`none` = it raised). -/
structure TickEnv where
  nowMs : Int
  wifi : WifiState
  sampling : Bool
  readResult : Option (Option AirReading)
  rtcTemp : Option Rat
  nowUnix : Int
  sendResult : Option (Bool × String)
deriving DecidableEq

/-- The mutable scheduler state the claims depend on:
`self._next_send_ms` and `self._last_reading`. -/
structure SchedState where
  nextSendMs : Int
  lastReading : Option AirReading
deriving DecidableEq

/-- Externally visible steps of one tick, in program order. -/
inductive TickEvent
  | setNextDue (t : Int)
  | wifiCheck
  | sensorRead
  | buildPayload
  | postSend
  | writeLastSent (ts : Int) (ok : Bool)
deriving DecidableEq

/-- Result of one tick: the new state and the ordered event trace. -/
structure TickResult where
  state : SchedState
  events : List TickEvent
deriving DecidableEq

/-- `self._last_reading` after the read step of a due tick: updated only when
`read_quick` returned a truthy reading. -/
def updatedReading (st : SchedState) (env : TickEnv) : Option AirReading :=
  match env.readResult with
  | some (some r) => some r
  | _ => st.lastReading

/-- The wifi check is only performed when a wifi manager exists. -/
def wifiEvents (w : WifiState) : List TickEvent :=
  match w with
  | .noManager => []
  | _ => [TickEvent.wifiCheck]

/-- Whether the wifi branch returns early (disconnected, or the check raised). -/
def wifiBlocks (w : WifiState) : Bool :=
  match w with
  | .disconnected => true
  | .checkError => true
  | _ => false

/-- Embedding of `TelemetryScheduler.tick(cfg, rtc_dict)`, in source order:
enabled gate; due gate; schedule `next_due = now + interval_s * 1000` first;
wifi check; sampling-warmup skip; `read_quick`; build values; the
rtc-not-epoch silent skip (`recorded_at < 1000000000`); the real-data gate
(writes `last_sent` with ok=false and stops); otherwise build the payload,
send it and write `last_sent` with the send outcome. -/
def tick (cfg : SchedCfg) (st : SchedState) (env : TickEnv) : TickResult :=
  if cfg.present = false ∨ cfg.telemetry_enabled = false then
    { state := st, events := [] }
  else if env.nowMs - st.nextSendMs < 0 then
    { state := st, events := [] }
  else
    let next := env.nowMs + intervalS cfg * 1000
    let ev1 := TickEvent.setNextDue next :: wifiEvents env.wifi
    if wifiBlocks env.wifi then
      { state := { nextSendMs := next, lastReading := st.lastReading },
        events := ev1 }
    else if env.sampling then
      { state := { nextSendMs := next, lastReading := st.lastReading },
        events := ev1 }
    else
      let lr := updatedReading st env
      let ev2 := ev1 ++ [TickEvent.sensorRead]
      if env.nowUnix < 1000000000 then
        { state := { nextSendMs := next, lastReading := lr }, events := ev2 }
      else if values_has_real_data (build_values lr env.rtcTemp) = false then
        { state := { nextSendMs := next, lastReading := lr },
          events := ev2 ++ [TickEvent.writeLastSent env.nowUnix false] }
      else
        { state := { nextSendMs := next, lastReading := lr },
          events := ev2 ++ [TickEvent.buildPayload, TickEvent.postSend,
            TickEvent.writeLastSent env.nowUnix
              (match env.sendResult with
               | some r => r.1
               | none => false)] }

/-- The `write_last_sent(ts, ok)` calls of a tick, in order. -/
def tickWrites (r : TickResult) : List (Int × Bool) :=
  r.events.filterMap fun e =>
    match e with
    | .writeLastSent t b => some (t, b)
    | _ => none

/-- The number of `client.send` (transport) invocations of a tick. -/
def tickPosts (r : TickResult) : Nat :=
  (r.events.filter fun e =>
    match e with
    | .postSend => true
    | _ => false).length

/-- The number of telemetry payloads constructed by a tick. -/
def tickBuilds (r : TickResult) : Nat :=
  (r.events.filter fun e =>
    match e with
    | .buildPayload => true
    | _ => false).length

/-- A tick is due when the config is truthy, telemetry is enabled and
`ticks_diff(now, next_send_ms) >= 0`. -/
def tickDue (cfg : SchedCfg) (st : SchedState) (env : TickEnv) : Prop :=
  cfg.present = true ∧ cfg.telemetry_enabled = true ∧
    0 ≤ env.nowMs - st.nextSendMs

instance (cfg : SchedCfg) (st : SchedState) (env : TickEnv) :
    Decidable (tickDue cfg st env) := by
  unfold tickDue
  infer_instance

/-- Scheduler state along a trace of tick calls with per-call configs and
environments, from an arbitrary initial state. -/
def schedStates (cfgs : Nat → SchedCfg) (envs : Nat → TickEnv)
    (init : SchedState) : Nat → SchedState
  | 0 => init
  | n + 1 => (tick (cfgs n) (schedStates cfgs envs init n) (envs n)).state

theorem tick_not_due (cfg : SchedCfg) (st : SchedState) (env : TickEnv)
    (h : ¬ tickDue cfg st env) :
    tick cfg st env = { state := st, events := [] } := by
  unfold tickDue at h
  push_neg at h
  unfold tick
  by_cases hp : cfg.present = false ∨ cfg.telemetry_enabled = false
  · rw [if_pos hp]
  · rw [if_neg hp]
    push_neg at hp
    have h1 : cfg.present = true := by
      cases hcp : cfg.present
      · exact absurd hcp hp.1
      · rfl
    have h2 : cfg.telemetry_enabled = true := by
      cases hce : cfg.telemetry_enabled
      · exact absurd hce hp.2
      · rfl
    have h3 := h h1 h2
    rw [if_pos (by omega)]

theorem tick_due_nextSendMs (cfg : SchedCfg) (st : SchedState) (env : TickEnv)
    (h : tickDue cfg st env) :
    (tick cfg st env).state.nextSendMs = env.nowMs + intervalS cfg * 1000 := by
  obtain ⟨h1, h2, h3⟩ := h
  unfold tick
  rw [if_neg (by simp [h1, h2]), if_neg (by omega)]
  dsimp only
  split_ifs <;> rfl

/-! ## Claim theorems -/

theorem retryFinish_ready (o : Option RawSample) :
    (retryFinish o).ready = false := by
  cases o <;> rfl

theorem ite_add_right (c : Prop) [Decidable c] (s k : Int) :
    (if c then s + k else s) = s + (if c then k else 0) := by
  split_ifs <;> omega

theorem ite_chain3 (c1 c2 c3 : Prop) [Decidable c1] [Decidable c2]
    [Decidable c3] (s : Int) :
    (if c1 then s + 20 else if c2 then s + 12 else if c3 then s + 5 else s) =
      s + (if c1 then 20 else if c2 then 12 else if c3 then 5 else 0) := by
  split_ifs <;> omega

theorem ite_pair (c : Prop) [Decidable c] (s : Int) :
    (if c then s + 15 else s + 5) = s + (if c then 15 else 5) := by
  split_ifs <;> omega

theorem ens_values_look_ready_bounds (a t e : Int)
    (h : ens_values_look_ready a t e = true) :
    1 ≤ a ∧ a ≤ 5 ∧ 0 < e ∧ e ≤ 60000 ∧ t ≤ 65000 := by
  unfold ens_values_look_ready at h
  split_ifs at h with h1 h2 h3 h4
  all_goals try cases h
  push_neg at h1
  omega

/-- C8: for all inputs the confidence score equals the spec's additive
weighted sum (validity +30, warm-up +10, plausible temperature +10, plausible
humidity +10, eCO2-stability tier 20/12/5/0 with a flat +5 when there is no
previous reading, AQI-stability 15/5 only when both AQIs are known, +5 unless
the source is the fallback path) clamped to [1, 100]; in particular
1 ≤ confidence ≤ 100, and the function is deterministic by construction. -/
theorem calculate_co2_confidence_matches_spec
    (ens_valid warmup_done temp_ok rh_ok : Bool) (eco2_ppm : Int)
    (last_eco2_ppm : Option Int) (aqi : Option Int) (last_aqi : Option Int)
    (source : String) :
    calculate_co2_confidence ens_valid warmup_done temp_ok rh_ok eco2_ppm
        last_eco2_ppm aqi last_aqi source =
      specConfidence ens_valid warmup_done temp_ok rh_ok eco2_ppm
        last_eco2_ppm aqi last_aqi source ∧
    1 ≤ calculate_co2_confidence ens_valid warmup_done temp_ok rh_ok eco2_ppm
        last_eco2_ppm aqi last_aqi source ∧
    calculate_co2_confidence ens_valid warmup_done temp_ok rh_ok eco2_ppm
        last_eco2_ppm aqi last_aqi source ≤ 100 := by
  refine ⟨?_, ?_, ?_⟩
  · unfold calculate_co2_confidence specConfidence
    dsimp only
    refine congrArg (fun x => clamp x 1 100) ?_
    by_cases hs : source = "fallback" <;>
      cases last_eco2_ppm <;> cases aqi <;> cases last_aqi <;>
      simp only [hs, ne_eq, eq_self_iff_true, not_true_eq_false,
        not_false_eq_true, if_true, if_false, ite_true, ite_false,
        ite_add_right, ite_chain3, ite_pair] <;> omega
  · unfold calculate_co2_confidence
    exact (clamp_bounds _ 1 100 (by omega)).1
  · unfold calculate_co2_confidence
    exact (clamp_bounds _ 1 100 (by omega)).2

/-- C2: after `_enqueue` with the default capacity 100 the stored queue has
length at most 100; the result is exactly the last 100 entries of the
appended sequence (oldest evicted from the front, relative order preserved);
and after enqueuing at least 100 payloads with no drains the queue holds
exactly the 100 most recently enqueued payloads, in order, regardless of the
initial queue state. -/
theorem enqueue_capacity {α : Type} (q : List α) (p : α) :
    (enqueue 100 q p).length ≤ 100 ∧
    enqueue 100 q p = (q ++ [p]).drop ((q ++ [p]).length - 100) ∧
    ∀ (q0 ps : List α), 100 ≤ ps.length →
      List.foldl (enqueue 100) q0 ps = ps.drop (ps.length - 100) := by
  refine ⟨?_, ?_, ?_⟩
  · rw [enqueue_eq_takeLast]
    exact length_takeLast _ _
  · rw [enqueue_eq_takeLast]
    rfl
  · intro q0 ps hps
    cases ps with
    | nil => simp at hps
    | cons p0 ps0 => ?_
    have hstep : (enqueue 100 q0 p0).length ≤ 100 := by
      rw [enqueue_eq_takeLast]
      exact length_takeLast _ _
    calc List.foldl (enqueue 100) q0 (p0 :: ps0)
        = List.foldl (enqueue 100) (enqueue 100 q0 p0) ps0 := rfl
      _ = takeLast 100 (enqueue 100 q0 p0 ++ ps0) :=
          foldl_enqueue_takeLast 100 ps0 _ hstep
      _ = takeLast 100 (takeLast 100 (q0 ++ [p0]) ++ ps0) := by
          rw [enqueue_eq_takeLast]
      _ = takeLast 100 ((q0 ++ [p0]) ++ ps0) := takeLast_takeLast_append _ _ _
      _ = takeLast 100 (q0 ++ (p0 :: ps0)) := by
          rw [List.append_assoc]
          rfl
      _ = takeLast 100 (p0 :: ps0) :=
          takeLast_append_of_le _ _ _ (by simpa using hps)
      _ = (p0 :: ps0).drop ((p0 :: ps0).length - 100) := rfl

theorem enqueue_capacity_witness :
    100 ≤ (List.range 100).length ∧
    List.foldl (enqueue 100) [999] (List.range 100) =
      (List.range 100).drop ((List.range 100).length - 100) :=
  ⟨by simp, (enqueue_capacity [] 0).2.2 [999] (List.range 100) (by simp)⟩

/-- C6: a raw ENS160 sample with `eco2_ppm <= 0`, or `aqi` outside [1, 5], or
`eco2_ppm > 60000`, or `tvoc_ppb > 65000` fails the validity heuristic; a
retry-loop result (and hence the `AirReading` built from it by `read_quick`)
that is `ready = true` satisfies `1 <= aqi <= 5`, `0 < eco2_ppm <= 60000` and
`tvoc_ppb <= 65000`. -/
theorem ready_reading_bounds :
    (∀ a t e : Int,
      (e ≤ 0 ∨ a < 1 ∨ 5 < a ∨ 60000 < e ∨ 65000 < t) →
      ens_values_look_ready a t e = false) ∧
    (∀ (timeout_ms step_ms : Nat) (attempts : Nat → Option RawSample),
      (read_ens160_with_retry timeout_ms step_ms attempts).ready = true →
      1 ≤ (read_ens160_with_retry timeout_ms step_ms attempts).aqi ∧
      (read_ens160_with_retry timeout_ms step_ms attempts).aqi ≤ 5 ∧
      0 < (read_ens160_with_retry timeout_ms step_ms attempts).eco2_ppm ∧
      (read_ens160_with_retry timeout_ms step_ms attempts).eco2_ppm ≤ 60000 ∧
      (read_ens160_with_retry timeout_ms step_ms attempts).tvoc_ppb ≤ 65000) ∧
    (∀ env : QuickEnv, (mkQuickReading env).ready = true →
      1 ≤ (mkQuickReading env).aqi ∧ (mkQuickReading env).aqi ≤ 5 ∧
      0 < (mkQuickReading env).eco2_ppm ∧
      (mkQuickReading env).eco2_ppm ≤ 60000 ∧
      (mkQuickReading env).tvoc_ppb ≤ 65000) := by
  refine ⟨?_, ?_, ?_⟩
  · intro a t e h
    cases hv : ens_values_look_ready a t e
    · rfl
    · exfalso
      have := ens_values_look_ready_bounds a t e hv
      omega
  · intro timeout_ms step_ms attempts h
    have hv := retryLoop_ready_valid attempts (retryIters timeout_ms step_ms)
      0 none h
    exact ens_values_look_ready_bounds _ _ _ hv
  · intro env h
    have h2 : (read_ens160_with_retry 1000 200 env.attempts).ready = true := h
    have hv := retryLoop_ready_valid env.attempts (retryIters 1000 200)
      0 none h2
    exact ens_values_look_ready_bounds _ _ _ hv

theorem ready_reading_bounds_witness :
    ens_values_look_ready 0 0 0 = false ∧
    1 ≤ (read_ens160_with_retry 1000 200
      (fun _ => some { aqi := 1, tvoc_ppb := 10, eco2_ppm := 650 })).aqi :=
  ⟨ready_reading_bounds.1 0 0 0 (Or.inl (by decide)),
   (ready_reading_bounds.2.1 1000 200
      (fun _ => some { aqi := 1, tvoc_ppb := 10, eco2_ppm := 650 })
      (by decide)).1⟩

/-- The attempts oracle of the C7 counterexample: the first read yields an
invalid sample, every later read raises (so the source resets `last = None`). -/
def cexAttempts : Nat → Option RawSample :=
  fun i => if i = 0 then some { aqi := 9, tvoc_ppb := 7, eco2_ppm := 123 } else none

/-- C7 counterexample: with a 1000 ms / 200 ms retry window where iteration 0
observes the (invalid) sample (9, 7, 123) and every later read raises, a
sample WAS obtained during the loop, yet the result is the zeroed tuple with
reason "ens160 read failed" — not the last observed raw sample with reason
"sensor not ready" as the claim states (the reason strings in the code are
"ens160 read failed"/"ens160 not ready", and `last` is reset to None by a
raising read, so the reason tracks the final iteration, not whether any
sample was ever obtained). -/
theorem retry_reason_counterexample :
    read_ens160_with_retry 1000 200 cexAttempts =
      { aqi := 0, tvoc_ppb := 0, eco2_ppm := 0, ready := false,
        reason := "ens160 read failed" } ∧
    read_ens160_with_retry 1000 200 cexAttempts ≠
      { aqi := 9, tvoc_ppb := 7, eco2_ppm := 123, ready := false,
        reason := "sensor not ready" } ∧
    (read_ens160_with_retry 1000 200 cexAttempts).reason ≠
      "sensor read failed" := by
  refine ⟨by decide, by decide, by decide⟩

/-- C7 (amended): over the `retryIters timeout_ms step_ms` loop iterations,
if some iteration's sample passes the validity heuristic the result is
`ready = true` with an empty reason; if no iteration passes, the result is
`retryFinish` of the FINAL iteration's read outcome: the zeroed sample with
reason "ens160 read failed" when the final read raised (or no iteration ran),
and the final raw sample (even if invalid) with reason "ens160 not ready"
otherwise. -/
theorem retry_loop_amended (timeout_ms step_ms : Nat) (_hstep : 0 < step_ms)
    (attempts : Nat → Option RawSample) :
    ((∃ i, i < retryIters timeout_ms step_ms ∧
        validAttempt (attempts i) = true) →
      (read_ens160_with_retry timeout_ms step_ms attempts).ready = true ∧
      (read_ens160_with_retry timeout_ms step_ms attempts).reason = "") ∧
    ((∀ i, i < retryIters timeout_ms step_ms →
        validAttempt (attempts i) = false) →
      (read_ens160_with_retry timeout_ms step_ms attempts).ready = false ∧
      (retryIters timeout_ms step_ms = 0 →
        read_ens160_with_retry timeout_ms step_ms attempts =
          retryFinish none) ∧
      (∀ m, retryIters timeout_ms step_ms = m + 1 →
        read_ens160_with_retry timeout_ms step_ms attempts =
          retryFinish (attempts m))) ∧
    retryFinish none =
      { aqi := 0, tvoc_ppb := 0, eco2_ppm := 0, ready := false,
        reason := "ens160 read failed" } ∧
    (∀ s, retryFinish (some s) =
      { aqi := s.aqi, tvoc_ppb := s.tvoc_ppb, eco2_ppm := s.eco2_ppm,
        ready := false, reason := "ens160 not ready" }) := by
  refine ⟨?_, ?_, rfl, fun s => rfl⟩
  · intro h
    exact retryLoop_found attempts (retryIters timeout_ms step_ms) 0 none
      (by simpa using h)
  · intro h
    have htime := retryLoop_timeout attempts (retryIters timeout_ms step_ms)
      0 none (by simpa using h)
    refine ⟨?_, ?_, ?_⟩
    · unfold read_ens160_with_retry
      rw [htime]
      exact retryFinish_ready _
    · intro h0
      unfold read_ens160_with_retry
      rw [htime, h0]
    · intro m hm
      unfold read_ens160_with_retry
      rw [htime, hm]
      simp

theorem retry_loop_amended_witness :
    0 < 200 ∧
    (∀ i, i < retryIters 1000 200 →
      validAttempt ((fun _ => (none : Option RawSample)) i) = false) ∧
    read_ens160_with_retry 1000 200 (fun _ => none) = retryFinish none :=
  ⟨by decide, fun i _ => rfl,
   ((retry_loop_amended 1000 200 (by decide) (fun _ => none)).2.1
      (fun i _ => rfl)).2.2 4 (by decide)⟩

/-- C3 counterexample: `flush_queue` deduplicates the retained remainder
against the kept failed item (`if it not in new_q`), so a queue holding two
equal payloads where the first post fails drains to a single copy — the claim
"leaves the failed item and every item after it in the queue" fails for
queue [B, B]: the result is [B], not [B, B]. -/
theorem flush_queue_duplicate_counterexample :
    flush_queue (fun _ => false) 10 [(0 : Nat), 0] = [0] ∧
    flush_queue (fun _ => false) 10 [(0 : Nat), 0] ≠ [0, 0] := by
  refine ⟨by decide, by decide⟩

/-- C3 (amended): when the failed item and all items after it are pairwise
distinct, `flush_queue` resends from the front oldest-first, stops at the
first failed item (attempted within the per-call bound), removes exactly the
successfully sent items, and keeps the failed item and everything after it in
their original relative order. -/
theorem flush_queue_amended {α : Type} [DecidableEq α] (posts : Nat → Bool)
    (maxToTry : Nat) (q1 q2 : List α) (x : α)
    (hsucc : ∀ i, i < q1.length → posts i = true)
    (hfail : posts q1.length = false)
    (hbound : q1.length < max 1 maxToTry)
    (hnodup : (x :: q2).Nodup) :
    flush_queue posts maxToTry (q1 ++ x :: q2) = x :: q2 := by
  have hloop := flushLoop_fail_at posts (max 1 maxToTry) x q2 q1 0
    (fun i hi => by simpa using hsucc i hi)
    (by simpa using hbound)
    (by simpa using hfail)
  simp only [Nat.zero_add] at hloop
  unfold flush_queue
  rw [if_neg (by simp)]
  dsimp only
  rw [hloop]
  dsimp only
  by_cases hq2 : q2 = []
  · subst hq2
    rw [if_neg (by
      simp only [List.length_append, List.length_cons, List.length_nil]
      omega)]
  · have hlen : 0 < q2.length := List.length_pos.mpr hq2
    rw [if_pos (by
      simp only [List.length_append, List.length_cons]
      omega)]
    have hdrop : (q1 ++ x :: q2).drop (q1.length + 1) = q2 := by
      rw [List.drop_append]
      rfl
    rw [hdrop]
    have hx : x ∉ q2 := (List.nodup_cons.mp hnodup).1
    rw [dedupAppend_of_disjoint q2 [x] (List.nodup_cons.mp hnodup).2
      (fun a ha => by
        simp only [List.mem_singleton]
        intro hax
        exact hx (hax ▸ ha))]
    rfl

/-- The all-but-first-failing posts oracle used to witness the amended C3. -/
def flushPostsW : Nat → Bool := fun i => decide (i < 1)

theorem flush_queue_amended_witness :
    (∀ i, i < 1 → flushPostsW i = true) ∧ flushPostsW 1 = false ∧
    1 < max 1 10 ∧ List.Nodup [(6 : Nat), 7] ∧
    flush_queue flushPostsW 10 [(5 : Nat), 6, 7] = [6, 7] :=
  ⟨fun i hi => by
      rw [Nat.lt_one_iff] at hi
      subst hi
      rfl,
   rfl, by decide, by decide,
   flush_queue_amended flushPostsW 10 [5] [7] 6
     (fun i hi => by
       rw [List.length_singleton, Nat.lt_one_iff] at hi
       subst hi
       rfl)
     rfl (by decide) (by decide)⟩

theorem sendLoop_zero {α : Type} [DecidableEq α] (env : SendEnv) (q : List α)
    (p : α) (i backoff : Nat) (sleeps : List Nat) (lastMsg : String) :
    sendLoop env q p 0 i backoff sleeps lastMsg =
      { ok := false, msg := "queued: " ++ lastMsg, queue := enqueue 100 q p,
        sleeps := sleeps, attempts := i } := rfl

theorem sendLoop_succ_true {α : Type} [DecidableEq α] (env : SendEnv)
    (q : List α) (p : α) (rem i backoff : Nat) (sleeps : List Nat)
    (lastMsg : String) (h : (env.payloadPost i).1 = true) :
    sendLoop env q p (rem + 1) i backoff sleeps lastMsg =
      { ok := true, msg := "sent", queue := flush_queue env.flushPost 8 q,
        sleeps := sleeps, attempts := i + 1 } := by
  conv_lhs => rw [sendLoop]
  rw [if_pos h]

theorem sendLoop_succ_false {α : Type} [DecidableEq α] (env : SendEnv)
    (q : List α) (p : α) (rem i backoff : Nat) (sleeps : List Nat)
    (lastMsg : String) (h : (env.payloadPost i).1 = false) :
    sendLoop env q p (rem + 1) i backoff sleeps lastMsg =
      sendLoop env q p rem (i + 1) (backoff * 2) (sleeps ++ [backoff])
        (env.payloadPost i).2 := by
  conv_lhs => rw [sendLoop]
  rw [if_neg (by simp [h])]

/-- C4: `send` with the default `retries = 3` makes at most 3 post attempts;
the sleeps performed follow the doubling backoff 1s, 2s, 4s; on the first
successful attempt it drains the queue with a bound of 8 items (at most 8
posts) and returns ("sent"); when all 3 attempts fail it appends the payload
to the persistent queue (length + 1 while under the 100 capacity) and returns
a "queued: " failure carrying the last failure's status text. -/
theorem send_retry_policy {α : Type} [DecidableEq α] (env : SendEnv)
    (q : List α) (p : α) :
    (send env q p 3).attempts ≤ 3 ∧
    ((∀ i, i < 3 → (env.payloadPost i).1 = false) →
      send env q p 3 =
        { ok := false, msg := "queued: " ++ (env.payloadPost 2).2,
          queue := enqueue 100 q p, sleeps := [1, 2, 4], attempts := 3 } ∧
      (q.length < 100 → (send env q p 3).queue.length = q.length + 1)) ∧
    (∀ k, k < 3 → (env.payloadPost k).1 = true →
      (∀ i, i < k → (env.payloadPost i).1 = false) →
      send env q p 3 =
        { ok := true, msg := "sent", queue := flush_queue env.flushPost 8 q,
          sleeps := (List.range k).map (fun i => 2 ^ i), attempts := k + 1 } ∧
      flushAttempts env.flushPost 8 q ≤ 8) := by
  have hcl : clampRetries 3 = 3 := by decide
  refine ⟨?_, ?_, ?_⟩
  · unfold send
    rw [hcl]
    by_cases h0 : (env.payloadPost 0).1 = true
    · rw [sendLoop_succ_true _ _ _ _ _ _ _ _ h0]
      simp
    · rw [sendLoop_succ_false _ _ _ _ _ _ _ _ (by simpa using h0)]
      by_cases h1 : (env.payloadPost 1).1 = true
      · rw [sendLoop_succ_true _ _ _ _ _ _ _ _ h1]
        simp
      · rw [sendLoop_succ_false _ _ _ _ _ _ _ _ (by simpa using h1)]
        by_cases h2 : (env.payloadPost 2).1 = true
        · rw [sendLoop_succ_true _ _ _ _ _ _ _ _ h2]
        · rw [sendLoop_succ_false _ _ _ _ _ _ _ _ (by simpa using h2),
            sendLoop_zero]
  · intro hall
    have h0 := hall 0 (by omega)
    have h1 := hall 1 (by omega)
    have h2 := hall 2 (by omega)
    have hsend : send env q p 3 =
        { ok := false, msg := "queued: " ++ (env.payloadPost 2).2,
          queue := enqueue 100 q p, sleeps := [1, 2, 4], attempts := 3 } := by
      unfold send
      rw [hcl, sendLoop_succ_false _ _ _ _ _ _ _ _ h0,
        sendLoop_succ_false _ _ _ _ _ _ _ _ h1,
        sendLoop_succ_false _ _ _ _ _ _ _ _ h2, sendLoop_zero]
      simp
    refine ⟨hsend, ?_⟩
    intro hq
    rw [hsend]
    unfold enqueue
    rw [if_neg (by
      simp only [List.length_append, List.length_cons, List.length_nil]
      omega)]
    simp
  · intro k hk hsucc hprev
    interval_cases k
    · refine ⟨?_, by simpa using flushAttempts_le env.flushPost 8 q⟩
      unfold send
      rw [hcl, sendLoop_succ_true _ _ _ _ _ _ _ _ hsucc]
      simp
    · have h0 := hprev 0 (by omega)
      refine ⟨?_, by simpa using flushAttempts_le env.flushPost 8 q⟩
      unfold send
      rw [hcl, sendLoop_succ_false _ _ _ _ _ _ _ _ h0,
        sendLoop_succ_true _ _ _ _ _ _ _ _ hsucc]
      simp [List.range_succ]
    · have h0 := hprev 0 (by omega)
      have h1 := hprev 1 (by omega)
      refine ⟨?_, by simpa using flushAttempts_le env.flushPost 8 q⟩
      unfold send
      rw [hcl, sendLoop_succ_false _ _ _ _ _ _ _ _ h0,
        sendLoop_succ_false _ _ _ _ _ _ _ _ h1,
        sendLoop_succ_true _ _ _ _ _ _ _ _ hsucc]
      simp [List.range_succ]

/-- A transport environment whose payload posts always fail with HTTP 500
and whose flush posts succeed, witnessing the exhausted-retries branch. -/
def sendEnvAllFail : SendEnv :=
  { payloadPost := fun _ => (false, "HTTP 500"), flushPost := fun _ => true }

theorem send_retry_policy_witness :
    (∀ i, i < 3 → (sendEnvAllFail.payloadPost i).1 = false) ∧
    send sendEnvAllFail [] (0 : Nat) 3 =
      { ok := false, msg := "queued: " ++ (sendEnvAllFail.payloadPost 2).2,
        queue := enqueue 100 [] 0, sleeps := [1, 2, 4], attempts := 3 } ∧
    "queued: " ++ (sendEnvAllFail.payloadPost 2).2 = "queued: HTTP 500" ∧
    enqueue 100 ([] : List Nat) 0 = [0] :=
  ⟨fun i _ => rfl,
   ((send_retry_policy sendEnvAllFail [] 0).2.1 (fun i _ => rfl)).1,
   rfl, by decide⟩

/-- C9: `read_quick` is total (exceptions are the `fail` oracle and return
`self._last`); after any call history, every stored `_last` reading has
`ready = true`; when the fresh reading is not ready (or the body raised) and a
previously accepted reading exists, that stale ready reading is returned; the
fresh not-ready reading (resp. nothing) is returned only when no reading was
ever accepted; a ready fresh reading is stored and returned. -/
theorem read_quick_stale_fallback (envs : List QuickEnv) (env : QuickEnv) :
    (∀ r, runQuick envs = some r → r.ready = true) ∧
    (env.fail = true →
      read_quick (runQuick envs) env = (runQuick envs, runQuick envs)) ∧
    (env.fail = false → (mkQuickReading env).ready = false →
      (read_quick (runQuick envs) env).1 = runQuick envs ∧
      (∀ p, runQuick envs = some p →
        (read_quick (runQuick envs) env).2 = some p ∧ p.ready = true) ∧
      (runQuick envs = none →
        (read_quick (runQuick envs) env).2 = some (mkQuickReading env))) ∧
    (env.fail = false → (mkQuickReading env).ready = true →
      read_quick (runQuick envs) env =
        (some (mkQuickReading env), some (mkQuickReading env))) := by
  refine ⟨runQuick_ready envs, ?_, ?_, ?_⟩
  · intro hf
    unfold read_quick
    rw [if_pos hf]
  · intro hf hr
    unfold read_quick
    rw [if_neg (by simp [hf])]
    dsimp only
    rw [if_neg (by simp [hr])]
    refine ⟨rfl, ?_, ?_⟩
    · intro p hp
      rw [hp]
      exact ⟨rfl, runQuick_ready envs p hp⟩
    · intro hnone
      rw [hnone]
  · intro hf hr
    unfold read_quick
    rw [if_neg (by simp [hf])]
    dsimp only
    rw [if_pos hr]

/-- A quick-read environment whose body does not raise and whose ENS reads
all raise, so the fresh reading is not ready. -/
def quickEnvW : QuickEnv :=
  { fail := false, aht21 := none, aht10 := none, attempts := fun _ => none,
    timestamp := 0, source := "telemetry" }

theorem read_quick_stale_fallback_witness :
    quickEnvW.fail = false ∧
    (mkQuickReading quickEnvW).ready = false ∧
    runQuick [] = none ∧
    (read_quick (runQuick []) quickEnvW).2 = some (mkQuickReading quickEnvW) :=
  ⟨rfl, by decide, rfl,
   ((read_quick_stale_fallback [] quickEnvW).2.2.1 rfl (by decide)).2.2 rfl⟩

/-- C1: a tick that does anything at all sets `next_due = now + interval_s *
1000` as its first step, before the connectivity check, the sensor read and
any network I/O; `interval_s` is floored at 10 seconds; and along any trace of
tick calls two consecutive due ticks are separated by at least
`interval_s * 1000` milliseconds of clock time, regardless of how the
intervening attempts ended. -/
theorem scheduler_cadence :
    (∀ (cfg : SchedCfg) (st : SchedState) (env : TickEnv),
      (tick cfg st env).events = [] ∨
      (tick cfg st env).events.head? =
        some (TickEvent.setNextDue (env.nowMs + intervalS cfg * 1000))) ∧
    (∀ cfg : SchedCfg, 10 ≤ intervalS cfg) ∧
    (∀ (cfgs : Nat → SchedCfg) (envs : Nat → TickEnv) (init : SchedState)
        (k m : Nat), k < m →
      tickDue (cfgs k) (schedStates cfgs envs init k) (envs k) →
      tickDue (cfgs m) (schedStates cfgs envs init m) (envs m) →
      (∀ j, k < j → j < m →
        ¬ tickDue (cfgs j) (schedStates cfgs envs init j) (envs j)) →
      (envs k).nowMs + intervalS (cfgs k) * 1000 ≤ (envs m).nowMs) := by
  refine ⟨?_, intervalS_ge_ten, ?_⟩
  · intro cfg st env
    unfold tick
    dsimp only
    split_ifs <;> simp [List.cons_append]
  · intro cfgs envs init k m hkm hk hm hbetween
    have hfix : ∀ j, k < j → j ≤ m →
        (schedStates cfgs envs init j).nextSendMs =
          (envs k).nowMs + intervalS (cfgs k) * 1000 := by
      intro j hj1 hj2
      induction j with
      | zero => omega
      | succ n ih =>
          by_cases hkn : k = n
          · subst hkn
            show (tick (cfgs k) (schedStates cfgs envs init k)
              (envs k)).state.nextSendMs = _
            exact tick_due_nextSendMs _ _ _ hk
          · have hk2 : k < n := by omega
            have hnm : n < m := by omega
            show (tick (cfgs n) (schedStates cfgs envs init n)
              (envs n)).state.nextSendMs = _
            rw [tick_not_due _ _ _ (hbetween n hk2 hnm)]
            exact ih hk2 (by omega)
    have hmfix := hfix m (by omega) (by omega)
    have hdue := hm.2.2
    omega

/-- Scheduler config used by the scheduler witnesses: telemetry enabled with
the 10-second floor interval. -/
def cfgW : SchedCfg :=
  { present := true, telemetry_enabled := true,
    telemetry_post_every_s := some 10 }

/-- A benign tick environment at a given tick-counter value. -/
def envW (nowMs : Int) : TickEnv :=
  { nowMs := nowMs, wifi := WifiState.noManager, sampling := false,
    readResult := some none, rtcTemp := none, nowUnix := 0,
    sendResult := none }

/-- Tick-environment trace: due at call 0 (t=0 ms), not due at call 1
(t=5000 ms), due again at call 2 (t=10000 ms). -/
def envsW : Nat → TickEnv :=
  fun n => if n = 0 then envW 0 else if n = 1 then envW 5000 else envW 10000

/-- Initial scheduler state for the witnesses. -/
def initW : SchedState := { nextSendMs := 0, lastReading := none }

theorem scheduler_cadence_witness :
    tickDue cfgW (schedStates (fun _ => cfgW) envsW initW 0) (envsW 0) ∧
    tickDue cfgW (schedStates (fun _ => cfgW) envsW initW 2) (envsW 2) ∧
    (envsW 0).nowMs + intervalS cfgW * 1000 ≤ (envsW 2).nowMs :=
  ⟨by decide, by decide,
   scheduler_cadence.2.2 (fun _ => cfgW) envsW initW 0 2 (by omega)
     (by decide) (by decide)
     (fun j hj1 hj2 => by
       interval_cases j
       decide)⟩

/-- C5: a due tick that reaches the real-data gate (wifi available, sampling
not in progress, epoch-synced clock) and whose built values map fails the
gate persists exactly one LastSentRecord {ts = now, ok = false} and makes
zero transport invocations and builds no payload. -/
theorem gate_skip_writes_false (cfg : SchedCfg) (st : SchedState)
    (env : TickEnv)
    (hdue : tickDue cfg st env)
    (hwifi : wifiBlocks env.wifi = false)
    (hsamp : env.sampling = false)
    (hepoch : 1000000000 ≤ env.nowUnix)
    (hgate : values_has_real_data
      (build_values (updatedReading st env) env.rtcTemp) = false) :
    tickWrites (tick cfg st env) = [(env.nowUnix, false)] ∧
    tickPosts (tick cfg st env) = 0 ∧
    tickBuilds (tick cfg st env) = 0 := by
  obtain ⟨h1, h2, h3⟩ := hdue
  unfold tick
  rw [if_neg (by simp [h1, h2]), if_neg (by omega)]
  dsimp only
  rw [if_neg (by simp [hwifi]), if_neg (by simp [hsamp]),
    if_neg (by omega), if_pos hgate]
  cases env.wifi <;>
    simp [tickWrites, tickPosts, tickBuilds, wifiEvents]

/-- The environment of the C5 witness: due, no wifi manager, not sampling,
epoch-synced clock, and a read that produced nothing, so the built values
carry only the "no_reading" note and fail the gate. -/
def envGateW : TickEnv :=
  { nowMs := 0, wifi := WifiState.noManager, sampling := false,
    readResult := some none, rtcTemp := none, nowUnix := 1700000000,
    sendResult := none }

theorem gate_skip_writes_false_witness :
    tickDue cfgW initW envGateW ∧
    values_has_real_data
      (build_values (updatedReading initW envGateW) envGateW.rtcTemp) = false ∧
    tickWrites (tick cfgW initW envGateW) = [(1700000000, false)] ∧
    tickPosts (tick cfgW initW envGateW) = 0 :=
  ⟨by decide, by decide,
   (gate_skip_writes_false cfgW initW envGateW (by decide) rfl rfl
      (by decide) (by decide)).1,
   (gate_skip_writes_false cfgW initW envGateW (by decide) rfl rfl
      (by decide) (by decide)).2.1⟩

/-- C10: a due tick whose unix clock reads under 1000000000 (RTC not
epoch-synced) returns silently after advancing `next_due`: no LastSentRecord
write, no payload construction and no transport invocation, on every path. -/
theorem rtc_not_epoch_silent_skip (cfg : SchedCfg) (st : SchedState)
    (env : TickEnv)
    (hdue : tickDue cfg st env)
    (hclock : env.nowUnix < 1000000000) :
    tickWrites (tick cfg st env) = [] ∧
    tickPosts (tick cfg st env) = 0 ∧
    tickBuilds (tick cfg st env) = 0 ∧
    (tick cfg st env).state.nextSendMs =
      env.nowMs + intervalS cfg * 1000 := by
  obtain ⟨h1, h2, h3⟩ := hdue
  unfold tick
  rw [if_neg (by simp [h1, h2]), if_neg (by omega)]
  dsimp only
  by_cases hw : wifiBlocks env.wifi = true
  · rw [if_pos hw]
    cases env.wifi <;>
      simp [tickWrites, tickPosts, tickBuilds, wifiEvents]
  · rw [if_neg hw]
    by_cases hs : env.sampling = true
    · rw [if_pos hs]
      cases env.wifi <;>
        simp [tickWrites, tickPosts, tickBuilds, wifiEvents]
    · rw [if_neg hs, if_pos (by omega)]
      cases env.wifi <;>
        simp [tickWrites, tickPosts, tickBuilds, wifiEvents]

/-- The environment of the C10 witness: due tick, connected wifi, but the
unix clock still reads 0 (RTC not synced). -/
def envRtcW : TickEnv :=
  { nowMs := 0, wifi := WifiState.connected, sampling := false,
    readResult := some none, rtcTemp := none, nowUnix := 0,
    sendResult := none }

theorem rtc_not_epoch_silent_skip_witness :
    tickDue cfgW initW envRtcW ∧
    envRtcW.nowUnix < 1000000000 ∧
    tickWrites (tick cfgW initW envRtcW) = [] ∧
    (tick cfgW initW envRtcW).state.nextSendMs = 10000 :=
  ⟨by decide, by decide,
   (rtc_not_epoch_silent_skip cfgW initW envRtcW (by decide) (by decide)).1,
   (rtc_not_epoch_silent_skip cfgW initW envRtcW (by decide) (by decide)).2.2.2⟩

end AirBuddy
